import Mathlib

/-!
Shallow embedding of the multistream_manager repository (Python sources
`app_v2.py`, `app.py`, `update_twitch.py`).

Modelling conventions:
* Network I/O is represented by oracle functions passed as arguments.  A call
  that can raise a transport exception returns `HttpResult α`; `HttpResult.exn`
  stands for a raised `requests` exception, `HttpResult.ok` for a received
  response.  `raise_for_status()` raises exactly when the status is ≥ 400.
* The human-readable text of an `HTTPError` is abstracted by `httpError`.
* Process-global mutable configuration dictionaries become explicit values
  threaded through the functions (input config, output config).
* `make_*_request` additionally returns two counters (number of token-refresh
  attempts, number of API requests issued) used only to state the retry
  policy; they do not influence the computed values.
-/

namespace StreamMgr

/-- Result of an HTTP call: a response, or a raised transport exception. -/
inductive HttpResult (α : Type) where
  | ok (resp : α)
  | exn (msg : String)
deriving DecidableEq

/-- Parsed JSON body of a token-endpoint response: the `access_token` and
`refresh_token` keys may each be present or absent. -/
structure TokenData where
  access_token : Option String
  refresh_token : Option String
deriving DecidableEq

/-- Abstraction of `str(e)` for `requests.exceptions.HTTPError` raised by
`raise_for_status()` on a status ≥ 400. -/
def httpError (status : Nat) : String :=
  "HTTP error " ++ toString status

/-- The whitespace characters removed by Python `str.strip()` (ASCII range:
space, tab, newline, carriage return, vertical tab, form feed). -/
def pyWhitespace (c : Char) : Bool :=
  c == ' ' || c == '\t' || c == '\n' || c == '\r' ||
  c == Char.ofNat 11 || c == Char.ofNat 12

/-- Python `str.strip()` with no argument: removes leading and trailing
whitespace.  (Python also strips a few Unicode space characters; the ASCII
set is what the claims exercise.) -/
def pyStrip (s : String) : String :=
  String.mk (((s.toList.dropWhile pyWhitespace).reverse.dropWhile pyWhitespace).reverse)

/-- Per-platform adapter outcome: `{"success": True, "message": m}` or
`{"success": False, "error": e}`. -/
inductive Outcome where
  | ok (message : String)
  | err (error : String)
deriving DecidableEq

/-- The `success` field of an outcome dictionary. -/
def Outcome.success : Outcome → Bool
  | .ok _ => true
  | .err _ => false

namespace AppV2

/-- `TWITCH_CONFIG` of `app_v2.py`. -/
structure TwitchConfig where
  client_id : String
  client_secret : String
  access_token : String
  refresh_token : String
  broadcaster_id : String
deriving DecidableEq

/-- `YOUTUBE_CONFIG` of `app_v2.py`. -/
structure YoutubeConfig where
  client_id : String
  client_secret : String
  access_token : String
  refresh_token : String
  video_id : String
deriving DecidableEq

/-- `TROVO_CONFIG` of `app_v2.py`. -/
structure TrovoConfig where
  client_id : String
  client_secret : String
  access_token : String
  refresh_token : String
  channel_id : String
deriving DecidableEq

/-- `VKPLAY_CONFIG` of `app_v2.py`. -/
structure VkplayConfig where
  access_token : String
  channel_id : String
deriving DecidableEq

/-- `KICK_CONFIG` of `app_v2.py`. -/
structure KickConfig where
  access_token : String
  channel_slug : String
deriving DecidableEq

/-- `refresh_twitch_token` of `app_v2.py`.  `tokenEp` is the oracle for the
POST to the Twitch token endpoint (status code and parsed JSON).  Returns the
Python function's boolean result together with the configuration after the
call.  A missing `access_token` key raises `KeyError` before any assignment;
every raise is caught and yields `False` with the configuration untouched. -/
def refresh_twitch_token (cfg : TwitchConfig)
    (tokenEp : HttpResult (Nat × TokenData)) : Bool × TwitchConfig :=
  match tokenEp with
  | .exn _ => (false, cfg)
  | .ok (status, td) =>
    if 400 ≤ status then (false, cfg)
    else
      match td.access_token with
      | none => (false, cfg)
      | some a =>
        let cfg := { cfg with access_token := a }
        let cfg :=
          match td.refresh_token with
          | some r => { cfg with refresh_token := r }
          | none => cfg
        (true, cfg)

/-- `refresh_youtube_token` of `app_v2.py` (same structure as the Twitch
variant, against the Google token endpoint). -/
def refresh_youtube_token (cfg : YoutubeConfig)
    (tokenEp : HttpResult (Nat × TokenData)) : Bool × YoutubeConfig :=
  match tokenEp with
  | .exn _ => (false, cfg)
  | .ok (status, td) =>
    if 400 ≤ status then (false, cfg)
    else
      match td.access_token with
      | none => (false, cfg)
      | some a =>
        let cfg := { cfg with access_token := a }
        let cfg :=
          match td.refresh_token with
          | some r => { cfg with refresh_token := r }
          | none => cfg
        (true, cfg)

/-- `refresh_trovo_token` of `app_v2.py` (same structure, Trovo endpoint). -/
def refresh_trovo_token (cfg : TrovoConfig)
    (tokenEp : HttpResult (Nat × TokenData)) : Bool × TrovoConfig :=
  match tokenEp with
  | .exn _ => (false, cfg)
  | .ok (status, td) =>
    if 400 ≤ status then (false, cfg)
    else
      match td.access_token with
      | none => (false, cfg)
      | some a =>
        let cfg := { cfg with access_token := a }
        let cfg :=
          match td.refresh_token with
          | some r => { cfg with refresh_token := r }
          | none => cfg
        (true, cfg)

/-- `make_twitch_request` of `app_v2.py`.  The function is endpoint-agnostic,
so it is polymorphic in the response payload `α` with `statusOf` projecting
`resp.status_code`.  `net` maps the access token placed in the Authorization
header to the HTTP result (no call site presets an Authorization header, so
the token is always injected from the configuration).  Returns the response,
the configuration after the call, the number of token-refresh attempts, and
the number of API requests issued. -/
def make_twitch_request {α : Type} (statusOf : α → Nat) (cfg : TwitchConfig)
    (net : String → HttpResult α) (tokenEp : HttpResult (Nat × TokenData)) :
    HttpResult α × TwitchConfig × Nat × Nat :=
  match net cfg.access_token with
  | .exn m => (.exn m, cfg, 0, 1)
  | .ok resp =>
    if statusOf resp = 401 then
      match refresh_twitch_token cfg tokenEp with
      | (true, cfg2) => (net cfg2.access_token, cfg2, 1, 2)
      | (false, cfg2) => (.ok resp, cfg2, 1, 1)
    else
      (.ok resp, cfg, 0, 1)

/-- `make_youtube_request` of `app_v2.py` (same retry structure). -/
def make_youtube_request {α : Type} (statusOf : α → Nat) (cfg : YoutubeConfig)
    (net : String → HttpResult α) (tokenEp : HttpResult (Nat × TokenData)) :
    HttpResult α × YoutubeConfig × Nat × Nat :=
  match net cfg.access_token with
  | .exn m => (.exn m, cfg, 0, 1)
  | .ok resp =>
    if statusOf resp = 401 then
      match refresh_youtube_token cfg tokenEp with
      | (true, cfg2) => (net cfg2.access_token, cfg2, 1, 2)
      | (false, cfg2) => (.ok resp, cfg2, 1, 1)
    else
      (.ok resp, cfg, 0, 1)

/-- `make_trovo_request` of `app_v2.py` (same retry structure; the OAuth
header scheme differs only in formatting, which the model abstracts to the
token value itself). -/
def make_trovo_request {α : Type} (statusOf : α → Nat) (cfg : TrovoConfig)
    (net : String → HttpResult α) (tokenEp : HttpResult (Nat × TokenData)) :
    HttpResult α × TrovoConfig × Nat × Nat :=
  match net cfg.access_token with
  | .exn m => (.exn m, cfg, 0, 1)
  | .ok resp =>
    if statusOf resp = 401 then
      match refresh_trovo_token cfg tokenEp with
      | (true, cfg2) => (net cfg2.access_token, cfg2, 1, 2)
      | (false, cfg2) => (.ok resp, cfg2, 1, 1)
    else
      (.ok resp, cfg, 0, 1)

/-- Parsed body of a response of the Twitch `helix/games` search (or the Trovo
`searchcategory` call): the status code and the list of result ids (the code
only ever reads `data[0]["id"]`, so each result is abstracted to its id). -/
structure GamesResponse where
  status : Nat
  data : List String
deriving DecidableEq

/-- `get_twitch_game_id` of `app_v2.py`.  `gamesNet` is the oracle for the GET
on the games-search endpoint, keyed by the access token used.  Every raise
inside the `try` (transport exception or `raise_for_status`) is caught and
yields `None`; a token refresh performed by `make_twitch_request` persists in
the returned configuration. -/
def get_twitch_game_id (cfg : TwitchConfig)
    (gamesNet : String → HttpResult GamesResponse)
    (tokenEp : HttpResult (Nat × TokenData)) (game_name : String) :
    Option String × TwitchConfig :=
  if game_name = "" then (none, cfg)
  else if cfg.access_token = "" then (none, cfg)
  else
    match make_twitch_request GamesResponse.status cfg gamesNet tokenEp with
    | (.exn _, cfg2, _, _) => (none, cfg2)
    | (.ok resp, cfg2, _, _) =>
      if 400 ≤ resp.status then (none, cfg2)
      else
        match resp.data with
        | [] => (none, cfg2)
        | id :: _ => (some id, cfg2)

/-- Body of the Twitch channel PATCH: `{"title": ..., "game_id": ...}` with
the `game_id` key present only when a game id was resolved. -/
structure TwitchBody where
  title : String
  game_id : Option String
deriving DecidableEq

/-- `update_twitch` of `app_v2.py`.  `patchNet` is the oracle for the channel
PATCH (token used, body sent ↦ status code); `tokenEp1`/`tokenEp2` are the
token-endpoint oracles for the (at most one each) refresh attempts during the
game search and the PATCH. -/
def update_twitch (cfg : TwitchConfig)
    (gamesNet : String → HttpResult GamesResponse)
    (patchNet : String → TwitchBody → HttpResult Nat)
    (tokenEp1 tokenEp2 : HttpResult (Nat × TokenData))
    (title category : String) : Outcome × TwitchConfig :=
  if cfg.access_token = "" then (.err "Twitch token не настроен", cfg)
  else if cfg.broadcaster_id = "" then (.err "Twitch broadcaster_id не настроен", cfg)
  else
    let r := if category ≠ "" then get_twitch_game_id cfg gamesNet tokenEp1 category
             else (none, cfg)
    let body : TwitchBody := { title := title, game_id := r.1 }
    match make_twitch_request (fun s => s) r.2 (fun tok => patchNet tok body) tokenEp2 with
    | (.exn m, cfg3, _, _) => (.err ("Twitch: " ++ m), cfg3)
    | (.ok status, cfg3, _, _) =>
      if 400 ≤ status then (.err ("Twitch: " ++ httpError status), cfg3)
      else (.ok "Twitch обновлен", cfg3)

/-- Body of the YouTube videos PUT: id, snippet title and the hardcoded
`categoryId` (`"20"` regardless of the requested category). -/
structure YoutubeBody where
  id : String
  title : String
  categoryId : String
deriving DecidableEq

/-- `update_youtube` of `app_v2.py`. -/
def update_youtube (cfg : YoutubeConfig)
    (putNet : String → YoutubeBody → HttpResult Nat)
    (tokenEp : HttpResult (Nat × TokenData))
    (title category : String) : Outcome × YoutubeConfig :=
  if cfg.access_token = "" then (.err "YouTube token не настроен", cfg)
  else if cfg.video_id = "" then (.err "YouTube video_id не настроен", cfg)
  else
    let body : YoutubeBody := { id := cfg.video_id, title := title, categoryId := "20" }
    match make_youtube_request (fun s => s) cfg (fun tok => putNet tok body) tokenEp with
    | (.exn m, cfg2, _, _) => (.err ("YouTube: " ++ m), cfg2)
    | (.ok status, cfg2, _, _) =>
      if 400 ≤ status then (.err ("YouTube: " ++ httpError status), cfg2)
      else (.ok "YouTube обновлен", cfg2)

/-- `get_trovo_category_id` of `app_v2.py`.  `searchNet` is the oracle for the
POST on `searchcategory` (access token used ↦ result); all raises are caught
and yield `None`. -/
def get_trovo_category_id (cfg : TrovoConfig)
    (searchNet : String → HttpResult GamesResponse)
    (tokenEp : HttpResult (Nat × TokenData)) (category_name : String) :
    Option String × TrovoConfig :=
  if category_name = "" then (none, cfg)
  else if cfg.access_token = "" then (none, cfg)
  else
    match make_trovo_request GamesResponse.status cfg searchNet tokenEp with
    | (.exn _, cfg2, _, _) => (none, cfg2)
    | (.ok resp, cfg2, _, _) =>
      if 400 ≤ resp.status then (none, cfg2)
      else
        match resp.data with
        | [] => (none, cfg2)
        | id :: _ => (some id, cfg2)

/-- Body of the Trovo channel-update POST: numeric channel id, live title and
the optional `category_id` key. -/
structure TrovoBody where
  channel_id : Int
  live_title : String
  category_id : Option String
deriving DecidableEq

/-- `update_trovo` of `app_v2.py`.  `int(TROVO_CONFIG["channel_id"])` raises
`ValueError` inside the `try` when the configured channel id is not numeric,
modelled with `String.toInt?`. -/
def update_trovo (cfg : TrovoConfig)
    (searchNet : String → HttpResult GamesResponse)
    (postNet : String → TrovoBody → HttpResult Nat)
    (tokenEp1 tokenEp2 : HttpResult (Nat × TokenData))
    (title category : String) : Outcome × TrovoConfig :=
  if cfg.access_token = "" then (.err "Trovo token не настроен", cfg)
  else if cfg.channel_id = "" then (.err "Trovo channel_id не настроен", cfg)
  else
    let r := if category ≠ "" then get_trovo_category_id cfg searchNet tokenEp1 category
             else (none, cfg)
    match r.2.channel_id.toInt? with
    | none => (.err ("Trovo: invalid channel_id " ++ r.2.channel_id), r.2)
    | some cid =>
      let body : TrovoBody := { channel_id := cid, live_title := title, category_id := r.1 }
      match make_trovo_request (fun s => s) r.2 (fun tok => postNet tok body) tokenEp2 with
      | (.exn m, cfg3, _, _) => (.err ("Trovo: " ++ m), cfg3)
      | (.ok status, cfg3, _, _) =>
        if 400 ≤ status then (.err ("Trovo: " ++ httpError status), cfg3)
        else (.ok "Trovo обновлен", cfg3)

/-- Body of the VK Play Live stream-update POST: title and optional category
(passed through as an opaque string). -/
structure VkplayBody where
  title : String
  category : Option String
deriving DecidableEq

/-- `update_vkplay` of `app_v2.py`.  Note: only the access token is checked;
`channel_id` is never consulted (the v2 endpoint takes no channel id). -/
def update_vkplay (cfg : VkplayConfig)
    (postNet : String → VkplayBody → HttpResult Nat)
    (title category : String) : Outcome :=
  if cfg.access_token = "" then .err "VK Play token не настроен"
  else
    let body : VkplayBody :=
      { title := title, category := if category ≠ "" then some category else none }
    match postNet cfg.access_token body with
    | .exn m => .err ("VK Play Live: " ++ m ++ " (требуется настройка Chat Client)")
    | .ok status =>
      if 400 ≤ status then
        .err ("VK Play Live: " ++ httpError status ++ " (требуется настройка Chat Client)")
      else .ok "VK Play Live обновлен"

/-- Body of the Kick channel PATCH: session title and optional category. -/
structure KickBody where
  session_title : String
  category : Option String
deriving DecidableEq

/-- `update_kick` of `app_v2.py`. -/
def update_kick (cfg : KickConfig)
    (patchNet : String → KickBody → HttpResult Nat)
    (title category : String) : Outcome :=
  if cfg.access_token = "" then .err "Kick token не настроен"
  else if cfg.channel_slug = "" then .err "Kick channel_slug не настроен"
  else
    let body : KickBody :=
      { session_title := title, category := if category ≠ "" then some category else none }
    match patchNet cfg.access_token body with
    | .exn m => .err ("Kick: " ++ m)
    | .ok status =>
      if 400 ≤ status then .err ("Kick: " ++ httpError status)
      else .ok "Kick обновлен"

/-- `MAX_HISTORY` of `app_v2.py` and `app.py`. -/
def MAX_HISTORY : Nat := 10

/-- A history record `{"title": ..., "category": ..., "timestamp": ...}`. -/
structure Entry where
  title : String
  category : String
  timestamp : String
deriving DecidableEq

/-- `add_to_history` of `app_v2.py` (identical in `app.py`).  The history list
read from / written back to the store is passed explicitly; `now` is the
formatted current timestamp.  Removes every existing entry with the same
(title, category) pair, inserts the new entry at index 0, truncates to
`MAX_HISTORY`. -/
def add_to_history (now title category : String) (history : List Entry) : List Entry :=
  let entry : Entry := { title := title, category := category, timestamp := now }
  let history := history.filter (fun h => !(h.title == title && h.category == category))
  (entry :: history).take MAX_HISTORY

/-- Result of `check_config` of `app_v2.py`: one boolean per platform. -/
structure ConfigStatus where
  twitch : Bool
  youtube : Bool
  trovo : Bool
  vkplay : Bool
  kick : Bool
deriving DecidableEq

/-- `check_config` of `app_v2.py`: `bool(CONFIG["access_token"])` per
platform, i.e. true iff the access token string is non-empty. -/
def check_config (tw : TwitchConfig) (yt : YoutubeConfig) (tr : TrovoConfig)
    (vk : VkplayConfig) (kk : KickConfig) : ConfigStatus :=
  { twitch := tw.access_token ≠ ""
    youtube := yt.access_token ≠ ""
    trovo := tr.access_token ≠ ""
    vkplay := vk.access_token ≠ ""
    kick := kk.access_token ≠ "" }

/-- The fixed enumeration order of platform keys the `update` route checks. -/
def canonicalOrder : List String := ["twitch", "youtube", "trovo", "vkplay", "kick"]

/-- The `results` dictionary built by the `update` route of `app_v2.py`
(insertion-ordered association list): one `if key in platforms` block per
platform, in the fixed order.  The five concrete adapter calls are abstracted
into the oracle `adapter` (each adapter is a total function into an outcome;
see the adapter definitions above). -/
def buildResults (adapter : String → Outcome) (platforms : List String) :
    List (String × Outcome) :=
  (if platforms.contains "twitch" then [("twitch", adapter "twitch")] else []) ++
  (if platforms.contains "youtube" then [("youtube", adapter "youtube")] else []) ++
  (if platforms.contains "trovo" then [("trovo", adapter "trovo")] else []) ++
  (if platforms.contains "vkplay" then [("vkplay", adapter "vkplay")] else []) ++
  (if platforms.contains "kick" then [("kick", adapter "kick")] else [])

/-- JSON answer of the `update` route together with the HTTP status and the
history list after the call. -/
structure UpdateResult where
  success : Bool
  body : String
  details : Option (List (String × Outcome))
  status : Nat
  history : List Entry
deriving DecidableEq

/-- The `update` route of `app_v2.py` (the orchestrator): trims title and
category, validates, fans out to the requested adapters in the fixed order,
and on at least one success appends to the history.  `adapter p t c` is the
outcome of platform `p`'s adapter on `(t, c)`; `now` the current timestamp
used by `add_to_history`. -/
def update (adapter : String → String → String → Outcome) (now : String)
    (title category : String) (platforms : List String)
    (history : List Entry) : UpdateResult :=
  let title := pyStrip title
  let category := pyStrip category
  if title = "" then
    { success := false, body := "Введите название стрима", details := none
      status := 400, history := history }
  else if platforms = [] then
    { success := false, body := "Выберите хотя бы одну платформу", details := none
      status := 400, history := history }
  else
    let results := buildResults (fun p => adapter p title category) platforms
    let success_count := (results.filter (fun r => r.2.success)).length
    if 0 < success_count then
      { success := true
        body := "Обновлено на " ++ toString success_count ++ "/" ++
                toString results.length ++ " платформе(ах)"
        details := some results, status := 200
        history := add_to_history now title category history }
    else
      { success := false, body := "Ошибка обновления на всех платформах"
        details := some results, status := 400, history := history }

end AppV2

namespace App

/-- `TWITCH_CONFIG` of `app.py` (the legacy variant; defaults are placeholder
strings such as `"YOUR_CLIENT_ID"`). -/
structure TwitchConfig where
  client_id : String
  access_token : String
  broadcaster_id : String
deriving DecidableEq

/-- `YOUTUBE_CONFIG` of `app.py`. -/
structure YoutubeConfig where
  access_token : String
  video_id : String
deriving DecidableEq

/-- `TROVO_CONFIG` of `app.py`. -/
structure TrovoConfig where
  client_id : String
  access_token : String
  channel_id : String
deriving DecidableEq

/-- `VKPLAY_CONFIG` of `app.py`. -/
structure VkplayConfig where
  access_token : String
  channel_id : String
deriving DecidableEq

/-- `KICK_CONFIG` of `app.py`. -/
structure KickConfig where
  access_token : String
  channel_slug : String
deriving DecidableEq

/-- The `validate-config` route of `app.py`: compares fields against the
placeholder default values — the client id for Twitch and Trovo, the access
token for the others. -/
def validate_config (tw : TwitchConfig) (yt : YoutubeConfig) (tr : TrovoConfig)
    (vk : VkplayConfig) (kk : KickConfig) : AppV2.ConfigStatus :=
  { twitch := tw.client_id ≠ "YOUR_CLIENT_ID"
    youtube := yt.access_token ≠ "YOUR_TOKEN"
    trovo := tr.client_id ≠ "YOUR_CLIENT_ID"
    vkplay := vk.access_token ≠ "YOUR_TOKEN"
    kick := kk.access_token ≠ "YOUR_TOKEN" }

end App

namespace UpdTw

/-- The module-level Twitch globals of `update_twitch.py`. -/
structure TwitchConfig where
  client_id : String
  client_secret : String
  access_token : String
  refresh_token : String
  broadcaster_id : String
deriving DecidableEq

/-- `refresh_twitch_token` of `update_twitch.py` (same logic as the
`app_v2.py` variant, over module globals). -/
def refresh_twitch_token (cfg : TwitchConfig)
    (tokenEp : HttpResult (Nat × TokenData)) : Bool × TwitchConfig :=
  match tokenEp with
  | .exn _ => (false, cfg)
  | .ok (status, td) =>
    if 400 ≤ status then (false, cfg)
    else
      match td.access_token with
      | none => (false, cfg)
      | some a =>
        let cfg := { cfg with access_token := a }
        let cfg :=
          match td.refresh_token with
          | some r => { cfg with refresh_token := r }
          | none => cfg
        (true, cfg)

/-- `make_twitch_request` of `update_twitch.py` (same retry structure as the
`app_v2.py` variant). -/
def make_twitch_request {α : Type} (statusOf : α → Nat) (cfg : TwitchConfig)
    (net : String → HttpResult α) (tokenEp : HttpResult (Nat × TokenData)) :
    HttpResult α × TwitchConfig × Nat × Nat :=
  match net cfg.access_token with
  | .exn m => (.exn m, cfg, 0, 1)
  | .ok resp =>
    if statusOf resp = 401 then
      match refresh_twitch_token cfg tokenEp with
      | (true, cfg2) => (net cfg2.access_token, cfg2, 1, 2)
      | (false, cfg2) => (.ok resp, cfg2, 1, 1)
    else
      (.ok resp, cfg, 0, 1)

/-- `get_game_id` of `update_twitch.py`.  Unlike the `app_v2.py` resolver
there is no `try` around the request: a transport exception propagates, and
`r.raise_for_status()` raises on any status ≥ 400.  The result is therefore
an `HttpResult` whose `exn` constructor models a raise to the caller. -/
def get_game_id (cfg : TwitchConfig)
    (gamesNet : String → HttpResult AppV2.GamesResponse)
    (tokenEp : HttpResult (Nat × TokenData)) (category_name : String) :
    HttpResult (Option String) × TwitchConfig :=
  if category_name = "" then (.ok none, cfg)
  else
    match make_twitch_request AppV2.GamesResponse.status cfg gamesNet tokenEp with
    | (.exn m, cfg2, _, _) => (.exn m, cfg2)
    | (.ok resp, cfg2, _, _) =>
      if 400 ≤ resp.status then (.exn (httpError resp.status), cfg2)
      else
        match resp.data with
        | [] => (.ok none, cfg2)
        | id :: _ => (.ok (some id), cfg2)

end UpdTw

/-! Helper lemmas. -/

/-- The `results` dictionary equals the canonical platform order restricted to
the requested keys, each mapped to its adapter's outcome. -/
theorem buildResults_eq (adapter : String → Outcome) (platforms : List String) :
    AppV2.buildResults adapter platforms =
      (AppV2.canonicalOrder.filter (fun p => platforms.contains p)).map
        (fun p => (p, adapter p)) := by
  by_cases h1 : "twitch" ∈ platforms <;>
    by_cases h2 : "youtube" ∈ platforms <;>
      by_cases h3 : "trovo" ∈ platforms <;>
        by_cases h4 : "vkplay" ∈ platforms <;>
          by_cases h5 : "kick" ∈ platforms <;>
            simp [AppV2.buildResults, AppV2.canonicalOrder, h1, h2, h3, h4, h5]

/-! Claim theorems. -/

/-- C2: a request whose trimmed title is empty, or whose platform list is
empty, yields a request-level 400 error; the result carries no per-platform
details and the history passed in is returned unchanged, and since the
right-hand sides do not mention `adapter`, no platform adapter is invoked. -/
theorem C2_invalid_request_rejected
    (adapter : String → String → String → Outcome) (now title category : String)
    (platforms : List String) (history : List AppV2.Entry) :
    (pyStrip title = "" →
      AppV2.update adapter now title category platforms history =
        { success := false, body := "Введите название стрима", details := none
          status := 400, history := history }) ∧
    (pyStrip title ≠ "" → platforms = [] →
      AppV2.update adapter now title category platforms history =
        { success := false, body := "Выберите хотя бы одну платформу", details := none
          status := 400, history := history }) := by
  constructor
  · intro h
    simp [AppV2.update, h]
  · intro h1 h2
    simp [AppV2.update, h1, h2]

/-- Witness for C2 at a concrete request: a whitespace-only title and a
title with an empty platform list. -/
theorem C2_invalid_request_rejected_witness :
    AppV2.update (fun _ _ _ => Outcome.ok "m") "2024-01-01T00:00:00" "   " "g"
        ["twitch"] [] =
      { success := false, body := "Введите название стрима", details := none
        status := 400, history := [] } ∧
    AppV2.update (fun _ _ _ => Outcome.ok "m") "2024-01-01T00:00:00" "Hello" ""
        [] [] =
      { success := false, body := "Выберите хотя бы одну платформу", details := none
        status := 400, history := [] } :=
  ⟨(C2_invalid_request_rejected _ _ _ _ _ _).1 (by decide),
   (C2_invalid_request_rejected _ _ _ _ _ _).2 (by decide) rfl⟩

/-- C10: a request with a non-empty trimmed title and a non-empty platform
list containing only unrecognized keys passes validation, invokes no adapter
(the right-hand side does not mention `adapter`), returns an empty details
mapping with the aggregate-failure error and status 400, and leaves the
history unchanged. -/
theorem C10_unknown_platforms_ignored
    (adapter : String → String → String → Outcome) (now title category : String)
    (platforms : List String) (history : List AppV2.Entry)
    (h1 : pyStrip title ≠ "") (h2 : platforms ≠ [])
    (h3 : ∀ p ∈ platforms, p ∉ AppV2.canonicalOrder) :
    AppV2.update adapter now title category platforms history =
      { success := false, body := "Ошибка обновления на всех платформах"
        details := some [], status := 400, history := history } := by
  have hc : ∀ s, s ∈ AppV2.canonicalOrder → platforms.contains s = false := by
    intro s hs
    rw [Bool.eq_false_iff]
    intro ht
    exact h3 s (List.elem_iff.mp ht) hs
  have hres : AppV2.buildResults (fun p => adapter p (pyStrip title) (pyStrip category)) platforms = [] := by
    rw [buildResults_eq]
    have : AppV2.canonicalOrder.filter (fun p => platforms.contains p) = [] := by
      apply List.filter_eq_nil_iff.mpr
      intro a ha
      have hmem : a ∉ platforms := fun hmem => h3 a hmem ha
      simp [hmem]
    rw [this]
    rfl
  simp [AppV2.update, h1, h2, hres]

/-- Witness for C10 at a concrete request listing only the unknown key
`"rumble"`. -/
theorem C10_unknown_platforms_ignored_witness :
    AppV2.update (fun _ _ _ => Outcome.ok "m") "2024-01-01T00:00:00" "Hello" "g"
        ["rumble"] [] =
      { success := false, body := "Ошибка обновления на всех платформах"
        details := some [], status := 400, history := [] } :=
  C10_unknown_platforms_ignored _ _ _ _ _ _ (by decide) (by decide)
    (by intro p hp; simp at hp; subst hp; decide)

/-- The new entry sits at the front of the history after an append. -/
theorem add_to_history_head (now t c : String) (l : List AppV2.Entry) :
    (AppV2.add_to_history now t c l).head? =
      some { title := t, category := c, timestamp := now } := by
  unfold AppV2.add_to_history
  rw [show AppV2.MAX_HISTORY = 9 + 1 from rfl, List.take_succ_cons]
  rfl

/-- After an append, exactly one history record carries the appended
(title, category) pair. -/
theorem add_to_history_count (now t c : String) (l : List AppV2.Entry) :
    ((AppV2.add_to_history now t c l).filter
        (fun e => e.title == t && e.category == c)).length = 1 := by
  unfold AppV2.add_to_history
  rw [show AppV2.MAX_HISTORY = 9 + 1 from rfl, List.take_succ_cons]
  rw [List.filter_cons_of_pos (by simp)]
  have hnil : (((l.filter fun e => !(e.title == t && e.category == c)).take 9).filter
      (fun e => e.title == t && e.category == c)) = [] := by
    apply List.filter_eq_nil_iff.mpr
    intro a ha
    have hmem : a ∈ l.filter fun e => !(e.title == t && e.category == c) :=
      List.take_subset _ _ ha
    have hq := (List.mem_filter.mp hmem).2
    simp only [Bool.not_eq_eq_eq_not, Bool.not_true, Bool.and_eq_false_imp] at hq ⊢
    simp at hq ⊢
    exact hq
  rw [hnil]
  rfl

/-- Length of the history after an append: one more than the de-duplicated
previous history, capped at `MAX_HISTORY`. -/
theorem add_to_history_length (now t c : String) (l : List AppV2.Entry) :
    (AppV2.add_to_history now t c l).length =
      min AppV2.MAX_HISTORY
        ((l.filter fun e => !(e.title == t && e.category == c)).length + 1) := by
  unfold AppV2.add_to_history
  simp [List.length_take]

/-- The history never exceeds `MAX_HISTORY` entries after an append. -/
theorem add_to_history_le (now t c : String) (l : List AppV2.Entry) :
    (AppV2.add_to_history now t c l).length ≤ AppV2.MAX_HISTORY := by
  unfold AppV2.add_to_history
  exact List.length_take_le _ _

/-- An append preserves distinctness of the (title, category) pairs. -/
theorem add_to_history_pairs_nodup (now t c : String) (l : List AppV2.Entry)
    (h : (l.map fun e => (e.title, e.category)).Nodup) :
    ((AppV2.add_to_history now t c l).map fun e => (e.title, e.category)).Nodup := by
  have hsub : List.Sublist (AppV2.add_to_history now t c l)
      (({ title := t, category := c, timestamp := now } : AppV2.Entry) ::
        l.filter fun e => !(e.title == t && e.category == c)) := by
    unfold AppV2.add_to_history
    exact List.take_sublist _ _
  apply List.Nodup.sublist (hsub.map _)
  rw [List.map_cons, List.nodup_cons]
  constructor
  · intro hmem
    simp only [List.mem_map] at hmem
    obtain ⟨x, hx, hpair⟩ := hmem
    have hq := (List.mem_filter.mp hx).2
    have h1x : x.title = t := congrArg Prod.fst hpair
    have h2x : x.category = c := congrArg Prod.snd hpair
    simp [h1x, h2x] at hq
  · exact h.sublist ((List.filter_sublist _).map _)

/-- C3: under a valid request, if no invoked adapter succeeds the aggregate
verdict is failure and the history is returned unchanged; if at least one
succeeds the verdict is success, the returned history is one `add_to_history`
step on the request's trimmed (title, category), hence it holds exactly one
record with that pair, that record (with the current timestamp) is at the
front, and its length is `min(MAX_HISTORY, n + 1)` where `n` is the previous
length after removing any prior duplicate of the pair. -/
theorem C3_aggregate_verdict_history
    (adapter : String → String → String → Outcome) (now title category : String)
    (platforms : List String) (history : List AppV2.Entry)
    (h1 : pyStrip title ≠ "") (h2 : platforms ≠ []) :
    (((AppV2.buildResults (fun p => adapter p (pyStrip title) (pyStrip category))
          platforms).filter (fun r => r.2.success)).length = 0 →
      (AppV2.update adapter now title category platforms history).success = false ∧
      (AppV2.update adapter now title category platforms history).history = history) ∧
    (0 < ((AppV2.buildResults (fun p => adapter p (pyStrip title) (pyStrip category))
          platforms).filter (fun r => r.2.success)).length →
      (AppV2.update adapter now title category platforms history).success = true ∧
      (AppV2.update adapter now title category platforms history).history =
        AppV2.add_to_history now (pyStrip title) (pyStrip category) history ∧
      ((AppV2.update adapter now title category platforms history).history.filter
          (fun e => e.title == pyStrip title && e.category == pyStrip category)).length = 1 ∧
      (AppV2.update adapter now title category platforms history).history.head? =
        some { title := pyStrip title, category := pyStrip category, timestamp := now } ∧
      (AppV2.update adapter now title category platforms history).history.length =
        min AppV2.MAX_HISTORY
          ((history.filter (fun e =>
              !(e.title == pyStrip title && e.category == pyStrip category))).length + 1)) := by
  constructor
  · intro h0
    have hupd : AppV2.update adapter now title category platforms history =
        { success := false, body := "Ошибка обновления на всех платформах"
          details := some (AppV2.buildResults
            (fun p => adapter p (pyStrip title) (pyStrip category)) platforms)
          status := 400, history := history } := by
      simp only [AppV2.update]
      rw [if_neg h1, if_neg h2, if_neg (by rw [h0]; exact Nat.lt_irrefl 0)]
    rw [hupd]
    exact ⟨rfl, rfl⟩
  · intro hpos
    have hhist : (AppV2.update adapter now title category platforms history).history =
        AppV2.add_to_history now (pyStrip title) (pyStrip category) history := by
      simp only [AppV2.update]
      rw [if_neg h1, if_neg h2, if_pos hpos]
    have hsucc : (AppV2.update adapter now title category platforms history).success = true := by
      simp only [AppV2.update]
      rw [if_neg h1, if_neg h2, if_pos hpos]
    refine ⟨hsucc, hhist, ?_, ?_, ?_⟩
    · rw [hhist]; exact add_to_history_count ..
    · rw [hhist]; exact add_to_history_head ..
    · rw [hhist]; exact add_to_history_length ..

/-- Witness for C3 at a concrete request: with an always-failing adapter the
history is untouched; with a succeeding Kick adapter the entry is prepended. -/
theorem C3_aggregate_verdict_history_witness :
    ((AppV2.update (fun _ _ _ => Outcome.err "down") "t0" "Hello" "g" ["kick"]
        [{ title := "Old", category := "o", timestamp := "t-1" }]).history =
      [{ title := "Old", category := "o", timestamp := "t-1" }]) ∧
    ((AppV2.update (fun _ _ _ => Outcome.ok "m") "t0" "Hello" "g" ["kick"]
        [{ title := "Old", category := "o", timestamp := "t-1" }]).history =
      AppV2.add_to_history "t0" "Hello" "g"
        [{ title := "Old", category := "o", timestamp := "t-1" }]) :=
  ⟨((C3_aggregate_verdict_history (fun _ _ _ => Outcome.err "down") "t0" "Hello" "g"
      ["kick"] [{ title := "Old", category := "o", timestamp := "t-1" }]
      (by decide) (by decide)).1 (by decide)).2,
   ((C3_aggregate_verdict_history (fun _ _ _ => Outcome.ok "m") "t0" "Hello" "g"
      ["kick"] [{ title := "Old", category := "o", timestamp := "t-1" }]
      (by decide) (by decide)).2 (by decide)).2.1⟩

/-- Invariant preservation along any fold of appends: the history stays at
most `MAX_HISTORY` long and its (title, category) pairs stay distinct. -/
theorem history_foldl_inv (ops : List (String × String × String)) :
    ∀ l : List AppV2.Entry, l.length ≤ AppV2.MAX_HISTORY →
      ((l.map fun e => (e.title, e.category)).Nodup) →
      ((ops.foldl (fun h o => AppV2.add_to_history o.1 o.2.1 o.2.2 h) l).length ≤
          AppV2.MAX_HISTORY ∧
        ((ops.foldl (fun h o => AppV2.add_to_history o.1 o.2.1 o.2.2 h) l).map
            (fun e => (e.title, e.category))).Nodup) := by
  induction ops with
  | nil => exact fun l hl hn => ⟨hl, hn⟩
  | cons o os ih =>
    intro l hl hn
    simp only [List.foldl_cons]
    exact ih _ (add_to_history_le ..) (add_to_history_pairs_nodup _ _ _ _ hn)

/-- Appending a sequence of operations with pairwise-distinct (title,
category) pairs to an empty history yields exactly the most recent
`MAX_HISTORY` of them, newest first. -/
theorem history_distinct_run (ops : List (String × String × String))
    (hnd : (ops.map fun o => (o.2.1, o.2.2)).Nodup) :
    ops.foldl (fun h o => AppV2.add_to_history o.1 o.2.1 o.2.2 h) [] =
      (ops.reverse.map fun o =>
        ({ title := o.2.1, category := o.2.2, timestamp := o.1 } : AppV2.Entry)).take
        AppV2.MAX_HISTORY := by
  induction ops using List.reverseRecOn with
  | nil => rfl
  | append_singleton as a ih =>
    rw [List.map_append] at hnd
    have hnd' : (as.map fun o => (o.2.1, o.2.2)).Nodup := (List.nodup_append.mp hnd).1
    have hnotin : (a.2.1, a.2.2) ∉ as.map fun o => (o.2.1, o.2.2) :=
      fun hmem => (List.nodup_append.mp hnd).2.2 hmem (List.mem_singleton_self _)
    rw [List.foldl_append]
    simp only [List.foldl_cons, List.foldl_nil]
    rw [ih hnd']
    unfold AppV2.add_to_history
    have hfilter : (((as.reverse.map fun o =>
        ({ title := o.2.1, category := o.2.2, timestamp := o.1 } : AppV2.Entry)).take
          AppV2.MAX_HISTORY).filter
        (fun e => !(e.title == a.2.1 && e.category == a.2.2))) =
        ((as.reverse.map fun o =>
          ({ title := o.2.1, category := o.2.2, timestamp := o.1 } : AppV2.Entry)).take
            AppV2.MAX_HISTORY) := by
      apply List.filter_eq_self.mpr
      intro x hx
      have hx2 : x ∈ as.reverse.map fun o =>
          ({ title := o.2.1, category := o.2.2, timestamp := o.1 } : AppV2.Entry) :=
        List.take_subset _ _ hx
      obtain ⟨o, ho, rfl⟩ := List.mem_map.mp hx2
      have ho2 : o ∈ as := List.mem_reverse.mp ho
      have hne : (o.2.1, o.2.2) ≠ (a.2.1, a.2.2) := by
        intro hEq
        exact hnotin (hEq ▸ List.mem_map_of_mem _ ho2)
      simp only [Bool.not_eq_eq_eq_not, Bool.not_true, Bool.and_eq_false_imp]
      simp only [decide_eq_true_eq, beq_iff_eq, Bool.not_eq_true']
      simp
      intro hEq1 hEq2
      exact hne (by rw [hEq1, hEq2])
    rw [hfilter, List.reverse_append]
    simp only [List.reverse_cons, List.reverse_nil, List.nil_append, List.map_cons,
      List.singleton_append]
    rw [show AppV2.MAX_HISTORY = 9 + 1 from rfl, List.take_succ_cons, List.take_succ_cons,
      List.take_take]
    norm_num

/-- C4: after any sequence of appends starting from an empty history, the
history holds at most `MAX_HISTORY` (10) entries with no two entries sharing
a (title, category) pair, and when all appended pairs are distinct the
history is exactly the most recent 10 operations, newest first (so 11
distinct inserts leave the 10 most recent). -/
theorem C4_history_invariants (ops : List (String × String × String)) :
    (ops.foldl (fun h o => AppV2.add_to_history o.1 o.2.1 o.2.2 h) []).length ≤
        AppV2.MAX_HISTORY ∧
    ((ops.foldl (fun h o => AppV2.add_to_history o.1 o.2.1 o.2.2 h) []).map
        (fun e => (e.title, e.category))).Nodup ∧
    ((ops.map (fun o => (o.2.1, o.2.2))).Nodup →
      ops.foldl (fun h o => AppV2.add_to_history o.1 o.2.1 o.2.2 h) [] =
        (ops.reverse.map (fun o =>
          ({ title := o.2.1, category := o.2.2, timestamp := o.1 } : AppV2.Entry))).take
          AppV2.MAX_HISTORY) :=
  ⟨(history_foldl_inv ops [] (by simp [AppV2.MAX_HISTORY]) (by simp)).1,
   (history_foldl_inv ops [] (by simp [AppV2.MAX_HISTORY]) (by simp)).2,
   fun hnd => history_distinct_run ops hnd⟩

/-- Witness for C4: inserting 11 distinct (title, category) pairs
sequentially leaves exactly the 10 most recent, newest first. -/
theorem C4_history_invariants_witness :
    [("t1", "A", "a"), ("t2", "B", "b"), ("t3", "C", "c"), ("t4", "D", "d"),
     ("t5", "E", "e"), ("t6", "F", "f"), ("t7", "G", "g"), ("t8", "H", "h"),
     ("t9", "I", "i"), ("t10", "J", "j"), ("t11", "K", "k")].foldl
      (fun h o => AppV2.add_to_history o.1 o.2.1 o.2.2 h) [] =
    [{ title := "K", category := "k", timestamp := "t11" },
     { title := "J", category := "j", timestamp := "t10" },
     { title := "I", category := "i", timestamp := "t9" },
     { title := "H", category := "h", timestamp := "t8" },
     { title := "G", category := "g", timestamp := "t7" },
     { title := "F", category := "f", timestamp := "t6" },
     { title := "E", category := "e", timestamp := "t5" },
     { title := "D", category := "d", timestamp := "t4" },
     { title := "C", category := "c", timestamp := "t3" },
     { title := "B", category := "b", timestamp := "t2" }] := by
  rw [(C4_history_invariants _).2.2 (by decide)]
  decide

/-- C1: for a valid request the details mapping is exactly the canonical
order {twitch, youtube, trovo, vkplay, kick} restricted to the requested
keys, each key mapped to its own adapter's outcome on the trimmed title and
category (so one platform's outcome never prevents the others from being
attempted), and each requested known platform appears exactly once. -/
theorem C1_dispatch_per_platform
    (adapter : String → String → String → Outcome) (now title category : String)
    (platforms : List String) (history : List AppV2.Entry)
    (h1 : pyStrip title ≠ "") (h2 : platforms ≠ []) :
    (AppV2.update adapter now title category platforms history).details =
      some ((AppV2.canonicalOrder.filter (fun p => platforms.contains p)).map
        (fun p => (p, adapter p (pyStrip title) (pyStrip category)))) ∧
    ∀ p ∈ AppV2.canonicalOrder, platforms.contains p = true →
      (((AppV2.update adapter now title category platforms history).details.getD []).map
          Prod.fst).count p = 1 := by
  have hdet : (AppV2.update adapter now title category platforms history).details =
      some ((AppV2.canonicalOrder.filter (fun p => platforms.contains p)).map
        (fun p => (p, adapter p (pyStrip title) (pyStrip category)))) := by
    simp only [AppV2.update]
    rw [if_neg h1, if_neg h2]
    split <;> simp [buildResults_eq]
  refine ⟨hdet, ?_⟩
  intro p hp hcont
  rw [hdet]
  have hkeys : (((AppV2.canonicalOrder.filter (fun p => platforms.contains p)).map
      (fun p => (p, adapter p (pyStrip title) (pyStrip category)))).map Prod.fst) =
      AppV2.canonicalOrder.filter (fun p => platforms.contains p) := by
    rw [List.map_map]
    have hid : (Prod.fst ∘ fun p : String =>
        (p, adapter p (pyStrip title) (pyStrip category))) = id := rfl
    rw [hid, List.map_id]
  simp only [Option.getD_some, hkeys]
  have hnd : (AppV2.canonicalOrder.filter (fun p => platforms.contains p)).Nodup :=
    List.Nodup.filter _ (by decide)
  have hmem : p ∈ AppV2.canonicalOrder.filter (fun p => platforms.contains p) :=
    List.mem_filter.mpr ⟨hp, hcont⟩
  exact List.count_eq_one_of_mem hnd hmem

/-- Witness for C1 at a concrete request for {kick, twitch} where the Twitch
adapter fails and the Kick adapter succeeds: both platforms still receive
exactly one outcome, in canonical order. -/
theorem C1_dispatch_per_platform_witness :
    (AppV2.update
        (fun p _ _ => if p = "twitch" then Outcome.err "boom" else Outcome.ok "m")
        "2024-01-01T00:00:00" "Hello" "g" ["kick", "twitch"] []).details =
      some [("twitch", Outcome.err "boom"), ("kick", Outcome.ok "m")] ∧
    (((AppV2.update
        (fun p _ _ => if p = "twitch" then Outcome.err "boom" else Outcome.ok "m")
        "2024-01-01T00:00:00" "Hello" "g" ["kick", "twitch"] []).details.getD []).map
      Prod.fst).count "twitch" = 1 := by
  have h := C1_dispatch_per_platform
    (fun p _ _ => if p = "twitch" then Outcome.err "boom" else Outcome.ok "m")
    "2024-01-01T00:00:00" "Hello" "g" ["kick", "twitch"] [] (by decide) (by decide)
  exact ⟨by rw [h.1]; decide, h.2 "twitch" (by decide) (by decide)⟩

/-- A failed Twitch token refresh (app_v2) leaves the configuration
untouched. -/
theorem refresh_twitch_fail (cfg : AppV2.TwitchConfig)
    (ep : HttpResult (Nat × TokenData))
    (h : (AppV2.refresh_twitch_token cfg ep).1 = false) :
    (AppV2.refresh_twitch_token cfg ep).2 = cfg := by
  cases ep with
  | exn m => rfl
  | ok r =>
    obtain ⟨st, td⟩ := r
    by_cases hst : 400 ≤ st
    · simp [AppV2.refresh_twitch_token, hst]
    · cases ha : td.access_token with
      | none => simp [AppV2.refresh_twitch_token, hst, ha]
      | some a =>
        exfalso
        cases hr : td.refresh_token <;>
          simp [AppV2.refresh_twitch_token, hst, ha, hr] at h

/-- A failed YouTube token refresh (app_v2) leaves the configuration
untouched. -/
theorem refresh_youtube_fail (cfg : AppV2.YoutubeConfig)
    (ep : HttpResult (Nat × TokenData))
    (h : (AppV2.refresh_youtube_token cfg ep).1 = false) :
    (AppV2.refresh_youtube_token cfg ep).2 = cfg := by
  cases ep with
  | exn m => rfl
  | ok r =>
    obtain ⟨st, td⟩ := r
    by_cases hst : 400 ≤ st
    · simp [AppV2.refresh_youtube_token, hst]
    · cases ha : td.access_token with
      | none => simp [AppV2.refresh_youtube_token, hst, ha]
      | some a =>
        exfalso
        cases hr : td.refresh_token <;>
          simp [AppV2.refresh_youtube_token, hst, ha, hr] at h

/-- A failed Trovo token refresh (app_v2) leaves the configuration
untouched. -/
theorem refresh_trovo_fail (cfg : AppV2.TrovoConfig)
    (ep : HttpResult (Nat × TokenData))
    (h : (AppV2.refresh_trovo_token cfg ep).1 = false) :
    (AppV2.refresh_trovo_token cfg ep).2 = cfg := by
  cases ep with
  | exn m => rfl
  | ok r =>
    obtain ⟨st, td⟩ := r
    by_cases hst : 400 ≤ st
    · simp [AppV2.refresh_trovo_token, hst]
    · cases ha : td.access_token with
      | none => simp [AppV2.refresh_trovo_token, hst, ha]
      | some a =>
        exfalso
        cases hr : td.refresh_token <;>
          simp [AppV2.refresh_trovo_token, hst, ha, hr] at h

/-- A failed Twitch token refresh (update_twitch.py) leaves the module
globals untouched. -/
theorem refresh_updtw_fail (cfg : UpdTw.TwitchConfig)
    (ep : HttpResult (Nat × TokenData))
    (h : (UpdTw.refresh_twitch_token cfg ep).1 = false) :
    (UpdTw.refresh_twitch_token cfg ep).2 = cfg := by
  cases ep with
  | exn m => rfl
  | ok r =>
    obtain ⟨st, td⟩ := r
    by_cases hst : 400 ≤ st
    · simp [UpdTw.refresh_twitch_token, hst]
    · cases ha : td.access_token with
      | none => simp [UpdTw.refresh_twitch_token, hst, ha]
      | some a =>
        exfalso
        cases hr : td.refresh_token <;>
          simp [UpdTw.refresh_twitch_token, hst, ha, hr] at h

/-- A successful Twitch token refresh (app_v2) stores the response's access
token and, when the response carries one, the response's refresh token
(otherwise the stored refresh token is kept). -/
theorem refresh_twitch_success (cfg : AppV2.TwitchConfig) (st : Nat)
    (td : TokenData) (a : String) (hst : ¬ 400 ≤ st)
    (ha : td.access_token = some a) :
    AppV2.refresh_twitch_token cfg (.ok (st, td)) =
      (true, { cfg with access_token := a, refresh_token := td.refresh_token.getD cfg.refresh_token }) := by
  cases hr : td.refresh_token <;>
    simp [AppV2.refresh_twitch_token, hst, ha, hr]

/-- A successful YouTube token refresh (app_v2), same shape. -/
theorem refresh_youtube_success (cfg : AppV2.YoutubeConfig) (st : Nat)
    (td : TokenData) (a : String) (hst : ¬ 400 ≤ st)
    (ha : td.access_token = some a) :
    AppV2.refresh_youtube_token cfg (.ok (st, td)) =
      (true, { cfg with access_token := a, refresh_token := td.refresh_token.getD cfg.refresh_token }) := by
  cases hr : td.refresh_token <;>
    simp [AppV2.refresh_youtube_token, hst, ha, hr]

/-- A successful Twitch token refresh (update_twitch.py), same shape. -/
theorem refresh_updtw_success (cfg : UpdTw.TwitchConfig) (st : Nat)
    (td : TokenData) (a : String) (hst : ¬ 400 ≤ st)
    (ha : td.access_token = some a) :
    UpdTw.refresh_twitch_token cfg (.ok (st, td)) =
      (true, { cfg with access_token := a, refresh_token := td.refresh_token.getD cfg.refresh_token }) := by
  cases hr : td.refresh_token <;>
    simp [UpdTw.refresh_twitch_token, hst, ha, hr]

/-- C5: for each refresh-capable request wrapper (Twitch, YouTube, Trovo in
app_v2), at most one refresh attempt and at most one retry happen per call;
a non-401 first response is returned as-is with no refresh; a 401 first
response triggers exactly one refresh, and on refresh failure the original
401 response is returned with the configuration unchanged, while on refresh
success the request is re-issued exactly once with the refreshed token and
that second result is returned regardless of its outcome. -/
theorem C5_refresh_on_401_retry :
    (∀ (α : Type) (statusOf : α → Nat) (cfg : AppV2.TwitchConfig)
        (net : String → HttpResult α) (ep : HttpResult (Nat × TokenData)),
      ((AppV2.make_twitch_request statusOf cfg net ep).2.2.1 ≤ 1 ∧
        (AppV2.make_twitch_request statusOf cfg net ep).2.2.2 ≤ 2) ∧
      ∀ r, net cfg.access_token = .ok r →
        ((statusOf r ≠ 401 →
            AppV2.make_twitch_request statusOf cfg net ep = (.ok r, cfg, 0, 1)) ∧
         (statusOf r = 401 → (AppV2.refresh_twitch_token cfg ep).1 = false →
            AppV2.make_twitch_request statusOf cfg net ep = (.ok r, cfg, 1, 1)) ∧
         (statusOf r = 401 → ∀ cfg2,
            AppV2.refresh_twitch_token cfg ep = (true, cfg2) →
            AppV2.make_twitch_request statusOf cfg net ep =
              (net cfg2.access_token, cfg2, 1, 2)))) ∧
    (∀ (α : Type) (statusOf : α → Nat) (cfg : AppV2.YoutubeConfig)
        (net : String → HttpResult α) (ep : HttpResult (Nat × TokenData)),
      ((AppV2.make_youtube_request statusOf cfg net ep).2.2.1 ≤ 1 ∧
        (AppV2.make_youtube_request statusOf cfg net ep).2.2.2 ≤ 2) ∧
      ∀ r, net cfg.access_token = .ok r →
        ((statusOf r ≠ 401 →
            AppV2.make_youtube_request statusOf cfg net ep = (.ok r, cfg, 0, 1)) ∧
         (statusOf r = 401 → (AppV2.refresh_youtube_token cfg ep).1 = false →
            AppV2.make_youtube_request statusOf cfg net ep = (.ok r, cfg, 1, 1)) ∧
         (statusOf r = 401 → ∀ cfg2,
            AppV2.refresh_youtube_token cfg ep = (true, cfg2) →
            AppV2.make_youtube_request statusOf cfg net ep =
              (net cfg2.access_token, cfg2, 1, 2)))) ∧
    (∀ (α : Type) (statusOf : α → Nat) (cfg : AppV2.TrovoConfig)
        (net : String → HttpResult α) (ep : HttpResult (Nat × TokenData)),
      ((AppV2.make_trovo_request statusOf cfg net ep).2.2.1 ≤ 1 ∧
        (AppV2.make_trovo_request statusOf cfg net ep).2.2.2 ≤ 2) ∧
      ∀ r, net cfg.access_token = .ok r →
        ((statusOf r ≠ 401 →
            AppV2.make_trovo_request statusOf cfg net ep = (.ok r, cfg, 0, 1)) ∧
         (statusOf r = 401 → (AppV2.refresh_trovo_token cfg ep).1 = false →
            AppV2.make_trovo_request statusOf cfg net ep = (.ok r, cfg, 1, 1)) ∧
         (statusOf r = 401 → ∀ cfg2,
            AppV2.refresh_trovo_token cfg ep = (true, cfg2) →
            AppV2.make_trovo_request statusOf cfg net ep =
              (net cfg2.access_token, cfg2, 1, 2)))) := by
  refine ⟨?_, ?_, ?_⟩ <;> intro α statusOf cfg net ep
  · constructor
    · unfold AppV2.make_twitch_request
      cases hnet : net cfg.access_token with
      | exn m => simp
      | ok r =>
        by_cases h401 : statusOf r = 401
        · rcases hre : AppV2.refresh_twitch_token cfg ep with ⟨b, cfg2⟩
          cases b <;> simp [h401, hre]
        · simp [h401]
    · intro r hr
      refine ⟨?_, ?_, ?_⟩
      · intro hne
        simp [AppV2.make_twitch_request, hr, hne]
      · intro h401 hf
        have hcfg := refresh_twitch_fail cfg ep hf
        unfold AppV2.make_twitch_request
        rcases hre : AppV2.refresh_twitch_token cfg ep with ⟨b, cfg2⟩
        have hb : b = false := by rw [hre] at hf; exact hf
        have hc2 : cfg2 = cfg := by rw [hre] at hcfg; exact hcfg
        subst hb hc2
        simp [AppV2.make_twitch_request, hr, h401, hre]
      · intro h401 cfg2 hre
        simp [AppV2.make_twitch_request, hr, h401, hre]
  · constructor
    · unfold AppV2.make_youtube_request
      cases hnet : net cfg.access_token with
      | exn m => simp
      | ok r =>
        by_cases h401 : statusOf r = 401
        · rcases hre : AppV2.refresh_youtube_token cfg ep with ⟨b, cfg2⟩
          cases b <;> simp [h401, hre]
        · simp [h401]
    · intro r hr
      refine ⟨?_, ?_, ?_⟩
      · intro hne
        simp [AppV2.make_youtube_request, hr, hne]
      · intro h401 hf
        have hcfg := refresh_youtube_fail cfg ep hf
        unfold AppV2.make_youtube_request
        rcases hre : AppV2.refresh_youtube_token cfg ep with ⟨b, cfg2⟩
        have hb : b = false := by rw [hre] at hf; exact hf
        have hc2 : cfg2 = cfg := by rw [hre] at hcfg; exact hcfg
        subst hb hc2
        simp [AppV2.make_twitch_request, hr, h401, hre]
      · intro h401 cfg2 hre
        simp [AppV2.make_youtube_request, hr, h401, hre]
  · constructor
    · unfold AppV2.make_trovo_request
      cases hnet : net cfg.access_token with
      | exn m => simp
      | ok r =>
        by_cases h401 : statusOf r = 401
        · rcases hre : AppV2.refresh_trovo_token cfg ep with ⟨b, cfg2⟩
          cases b <;> simp [h401, hre]
        · simp [h401]
    · intro r hr
      refine ⟨?_, ?_, ?_⟩
      · intro hne
        simp [AppV2.make_trovo_request, hr, hne]
      · intro h401 hf
        have hcfg := refresh_trovo_fail cfg ep hf
        unfold AppV2.make_trovo_request
        rcases hre : AppV2.refresh_trovo_token cfg ep with ⟨b, cfg2⟩
        have hb : b = false := by rw [hre] at hf; exact hf
        have hc2 : cfg2 = cfg := by rw [hre] at hcfg; exact hcfg
        subst hb hc2
        simp [AppV2.make_twitch_request, hr, h401, hre]
      · intro h401 cfg2 hre
        simp [AppV2.make_trovo_request, hr, h401, hre]

/-- Witness for C5: a Twitch call whose first response is 401 and whose
refresh succeeds re-issues the request with the refreshed token and returns
the second (200) response, with one refresh and two API calls. -/
theorem C5_refresh_on_401_retry_witness :
    AppV2.make_twitch_request (fun s => s)
      { client_id := "cid", client_secret := "sec", access_token := "oldA"
        refresh_token := "oldR", broadcaster_id := "bid" }
      (fun tok => if tok = "oldA" then HttpResult.ok 401 else HttpResult.ok 200)
      (.ok (200, { access_token := some "newA", refresh_token := some "newR" })) =
      (.ok 200,
       { client_id := "cid", client_secret := "sec", access_token := "newA"
         refresh_token := "newR", broadcaster_id := "bid" }, 1, 2) := by
  have h := ((C5_refresh_on_401_retry.1 Nat (fun s => s)
    { client_id := "cid", client_secret := "sec", access_token := "oldA"
      refresh_token := "oldR", broadcaster_id := "bid" }
    (fun tok => if tok = "oldA" then HttpResult.ok 401 else HttpResult.ok 200)
    (.ok (200, { access_token := some "newA", refresh_token := some "newR" }))).2
    401 (by decide)).2.2 (by decide)
    { client_id := "cid", client_secret := "sec", access_token := "newA"
      refresh_token := "newR", broadcaster_id := "bid" } (by decide)
  rw [h]
  decide

/-- C6 counterexample: a successful Twitch refresh whose token response
carries a new access token but no refresh token updates the access token
while leaving the refresh token untouched — neither "both fields updated"
nor "both fields untouched" holds, refuting the claim as stated. -/
theorem C6_partial_refresh_counterexample :
    (AppV2.refresh_twitch_token
        { client_id := "cid", client_secret := "sec", access_token := "oldA"
          refresh_token := "oldR", broadcaster_id := "bid" }
        (.ok (200, { access_token := some "newA", refresh_token := none }))).1 = true ∧
    ¬ (((AppV2.refresh_twitch_token
          { client_id := "cid", client_secret := "sec", access_token := "oldA"
            refresh_token := "oldR", broadcaster_id := "bid" }
          (.ok (200, { access_token := some "newA", refresh_token := none }))).2.access_token ≠ "oldA" ∧
        (AppV2.refresh_twitch_token
          { client_id := "cid", client_secret := "sec", access_token := "oldA"
            refresh_token := "oldR", broadcaster_id := "bid" }
          (.ok (200, { access_token := some "newA", refresh_token := none }))).2.refresh_token ≠ "oldR") ∨
       (AppV2.refresh_twitch_token
          { client_id := "cid", client_secret := "sec", access_token := "oldA"
            refresh_token := "oldR", broadcaster_id := "bid" }
          (.ok (200, { access_token := some "newA", refresh_token := none }))).2 =
        { client_id := "cid", client_secret := "sec", access_token := "oldA"
          refresh_token := "oldR", broadcaster_id := "bid" }) := by
  decide

/-- C6 (amended): each token refresh (Twitch and YouTube in app_v2, Twitch in
update_twitch.py) is failure-atomic — a failed refresh leaves both stored
token fields untouched — and a successful refresh stores the response's
access token together with the response's refresh token when one is present,
keeping the stored refresh token otherwise. -/
theorem C6_refresh_atomicity_amended :
    (∀ (cfg : AppV2.TwitchConfig) (ep : HttpResult (Nat × TokenData)),
      ((AppV2.refresh_twitch_token cfg ep).1 = false →
        (AppV2.refresh_twitch_token cfg ep).2 = cfg) ∧
      (∀ (st : Nat) (td : TokenData) (a : String), ¬ 400 ≤ st →
        td.access_token = some a →
        AppV2.refresh_twitch_token cfg (.ok (st, td)) =
          (true, { cfg with access_token := a, refresh_token := td.refresh_token.getD cfg.refresh_token }))) ∧
    (∀ (cfg : AppV2.YoutubeConfig) (ep : HttpResult (Nat × TokenData)),
      ((AppV2.refresh_youtube_token cfg ep).1 = false →
        (AppV2.refresh_youtube_token cfg ep).2 = cfg) ∧
      (∀ (st : Nat) (td : TokenData) (a : String), ¬ 400 ≤ st →
        td.access_token = some a →
        AppV2.refresh_youtube_token cfg (.ok (st, td)) =
          (true, { cfg with access_token := a, refresh_token := td.refresh_token.getD cfg.refresh_token }))) ∧
    (∀ (cfg : UpdTw.TwitchConfig) (ep : HttpResult (Nat × TokenData)),
      ((UpdTw.refresh_twitch_token cfg ep).1 = false →
        (UpdTw.refresh_twitch_token cfg ep).2 = cfg) ∧
      (∀ (st : Nat) (td : TokenData) (a : String), ¬ 400 ≤ st →
        td.access_token = some a →
        UpdTw.refresh_twitch_token cfg (.ok (st, td)) =
          (true, { cfg with access_token := a, refresh_token := td.refresh_token.getD cfg.refresh_token }))) :=
  ⟨fun cfg ep => ⟨refresh_twitch_fail cfg ep,
      fun st td a hst ha => refresh_twitch_success cfg st td a hst ha⟩,
   fun cfg ep => ⟨refresh_youtube_fail cfg ep,
      fun st td a hst ha => refresh_youtube_success cfg st td a hst ha⟩,
   fun cfg ep => ⟨refresh_updtw_fail cfg ep,
      fun st td a hst ha => refresh_updtw_success cfg st td a hst ha⟩⟩

/-- Witness for C6 (amended) at concrete inputs: a failed refresh (500 from
the token endpoint) leaves the credentials unchanged, and a successful one
with both tokens in the response replaces both. -/
theorem C6_refresh_atomicity_amended_witness :
    (AppV2.refresh_twitch_token
        { client_id := "cid", client_secret := "sec", access_token := "oldA"
          refresh_token := "oldR", broadcaster_id := "bid" }
        (.ok (500, { access_token := some "newA", refresh_token := some "newR" }))).2 =
      { client_id := "cid", client_secret := "sec", access_token := "oldA"
        refresh_token := "oldR", broadcaster_id := "bid" } ∧
    AppV2.refresh_twitch_token
        { client_id := "cid", client_secret := "sec", access_token := "oldA"
          refresh_token := "oldR", broadcaster_id := "bid" }
        (.ok (200, { access_token := some "newA", refresh_token := some "newR" })) =
      (true, { client_id := "cid", client_secret := "sec", access_token := "newA"
               refresh_token := "newR", broadcaster_id := "bid" }) :=
  ⟨((C6_refresh_atomicity_amended.1
      { client_id := "cid", client_secret := "sec", access_token := "oldA"
        refresh_token := "oldR", broadcaster_id := "bid" }
      (.ok (500, { access_token := some "newA", refresh_token := some "newR" }))).1
      (by decide)),
   ((C6_refresh_atomicity_amended.1
      { client_id := "cid", client_secret := "sec", access_token := "oldA"
        refresh_token := "oldR", broadcaster_id := "bid" }
      (.ok (200, { access_token := some "newA", refresh_token := some "newR" }))).2
      200 { access_token := some "newA", refresh_token := some "newR" } "newA"
      (by decide) rfl)⟩

/-- C7 counterexample: the VK Play adapter with a configured access token but
an empty `channel_id` does not return a "not configured" error — it issues the
network call (a reachable server yields success, an outage yields a transport
error), refuting the claim that every adapter checks its target identifier
before any network call. -/
theorem C7_vkplay_missing_target_counterexample :
    AppV2.update_vkplay { access_token := "tok", channel_id := "" }
        (fun _ _ => HttpResult.ok 200) "T" "C" = Outcome.ok "VK Play Live обновлен" ∧
    AppV2.update_vkplay { access_token := "tok", channel_id := "" }
        (fun _ _ => HttpResult.exn "down") "T" "C" =
      Outcome.err "VK Play Live: down (требуется настройка Chat Client)" :=
  ⟨rfl, rfl⟩

/-- C7 (amended): in app_v2 the Twitch, YouTube, Trovo and Kick adapters
check the access token and the platform-specific target identifier before
any network call and return an immediate "not configured" failure when one
is missing (the right-hand sides mention no network oracle, so no call is
made); the VK Play adapter checks only the access token — its v2 update
endpoint takes no channel identifier, and a missing `channel_id` is not
rejected. -/
theorem C7_preconditions_amended :
    (∀ (cfg : AppV2.TwitchConfig) gamesNet patchNet ep1 ep2 (title category : String),
      (cfg.access_token = "" →
        AppV2.update_twitch cfg gamesNet patchNet ep1 ep2 title category =
          (.err "Twitch token не настроен", cfg)) ∧
      (cfg.access_token ≠ "" → cfg.broadcaster_id = "" →
        AppV2.update_twitch cfg gamesNet patchNet ep1 ep2 title category =
          (.err "Twitch broadcaster_id не настроен", cfg))) ∧
    (∀ (cfg : AppV2.YoutubeConfig) putNet ep (title category : String),
      (cfg.access_token = "" →
        AppV2.update_youtube cfg putNet ep title category =
          (.err "YouTube token не настроен", cfg)) ∧
      (cfg.access_token ≠ "" → cfg.video_id = "" →
        AppV2.update_youtube cfg putNet ep title category =
          (.err "YouTube video_id не настроен", cfg))) ∧
    (∀ (cfg : AppV2.TrovoConfig) searchNet postNet ep1 ep2 (title category : String),
      (cfg.access_token = "" →
        AppV2.update_trovo cfg searchNet postNet ep1 ep2 title category =
          (.err "Trovo token не настроен", cfg)) ∧
      (cfg.access_token ≠ "" → cfg.channel_id = "" →
        AppV2.update_trovo cfg searchNet postNet ep1 ep2 title category =
          (.err "Trovo channel_id не настроен", cfg))) ∧
    (∀ (cfg : AppV2.VkplayConfig) postNet (title category : String),
      cfg.access_token = "" →
        AppV2.update_vkplay cfg postNet title category =
          .err "VK Play token не настроен") ∧
    (∀ (cfg : AppV2.KickConfig) patchNet (title category : String),
      (cfg.access_token = "" →
        AppV2.update_kick cfg patchNet title category = .err "Kick token не настроен") ∧
      (cfg.access_token ≠ "" → cfg.channel_slug = "" →
        AppV2.update_kick cfg patchNet title category =
          .err "Kick channel_slug не настроен")) := by
  refine ⟨?_, ?_, ?_, ?_, ?_⟩
  · intro cfg gamesNet patchNet ep1 ep2 title category
    exact ⟨fun h => by simp [AppV2.update_twitch, h],
           fun h1 h2 => by simp [AppV2.update_twitch, h1, h2]⟩
  · intro cfg putNet ep title category
    exact ⟨fun h => by simp [AppV2.update_youtube, h],
           fun h1 h2 => by simp [AppV2.update_youtube, h1, h2]⟩
  · intro cfg searchNet postNet ep1 ep2 title category
    exact ⟨fun h => by simp [AppV2.update_trovo, h],
           fun h1 h2 => by simp [AppV2.update_trovo, h1, h2]⟩
  · intro cfg postNet title category h
    simp [AppV2.update_vkplay, h]
  · intro cfg patchNet title category
    exact ⟨fun h => by simp [AppV2.update_kick, h],
           fun h1 h2 => by simp [AppV2.update_kick, h1, h2]⟩

/-- Witness for C7 (amended) at concrete configurations: an empty Twitch
access token and an empty Kick channel slug each short-circuit. -/
theorem C7_preconditions_amended_witness :
    AppV2.update_twitch
        { client_id := "cid", client_secret := "sec", access_token := ""
          refresh_token := "rt", broadcaster_id := "bid" }
        (fun _ => HttpResult.exn "offline") (fun _ _ => HttpResult.exn "offline")
        (.exn "offline") (.exn "offline") "T" "C" =
      (.err "Twitch token не настроен",
       { client_id := "cid", client_secret := "sec", access_token := ""
         refresh_token := "rt", broadcaster_id := "bid" }) ∧
    AppV2.update_kick { access_token := "tok", channel_slug := "" }
        (fun _ _ => HttpResult.exn "offline") "T" "C" =
      .err "Kick channel_slug не настроен" :=
  ⟨(C7_preconditions_amended.1
      { client_id := "cid", client_secret := "sec", access_token := ""
        refresh_token := "rt", broadcaster_id := "bid" }
      (fun _ => HttpResult.exn "offline") (fun _ _ => HttpResult.exn "offline")
      (.exn "offline") (.exn "offline") "T" "C").1 rfl,
   (C7_preconditions_amended.2.2.2.2 { access_token := "tok", channel_slug := "" }
      (fun _ _ => HttpResult.exn "offline") "T" "C").2 (by decide) rfl⟩

/-- C8 counterexample: `get_game_id` of `update_twitch.py` propagates a
request failure to its caller — a 500 games-search response makes
`r.raise_for_status()` raise instead of returning "not found". -/
theorem C8_get_game_id_raises_counterexample :
    UpdTw.get_game_id
        { client_id := "cid", client_secret := "sec", access_token := "tok"
          refresh_token := "rt", broadcaster_id := "bid" }
        (fun _ => HttpResult.ok { status := 500, data := [] })
        (.exn "unused") "Dota 2" =
      (.exn (httpError 500),
       { client_id := "cid", client_secret := "sec", access_token := "tok"
         refresh_token := "rt", broadcaster_id := "bid" }) :=
  rfl

/-- C8 (amended): in app_v2 the Twitch and Trovo category resolvers never
raise — a raised request, an error status, or an empty result set each yield
`None` — and the platform update then proceeds as a title-only update (the
category field is omitted from the body) and can still succeed; in the
standalone `update_twitch.py` variant, `get_game_id` propagates request
failures to its caller. -/
theorem C8_resolver_never_raises_amended :
    (∀ (cfg : AppV2.TwitchConfig) gamesNet ep (name : String),
      name ≠ "" → cfg.access_token ≠ "" →
      ((∀ m cfg2 x y,
          AppV2.make_twitch_request AppV2.GamesResponse.status cfg gamesNet ep =
            (.exn m, cfg2, x, y) →
          AppV2.get_twitch_game_id cfg gamesNet ep name = (none, cfg2)) ∧
       (∀ resp cfg2 x y,
          AppV2.make_twitch_request AppV2.GamesResponse.status cfg gamesNet ep =
            (.ok resp, cfg2, x, y) → 400 ≤ resp.status →
          AppV2.get_twitch_game_id cfg gamesNet ep name = (none, cfg2)) ∧
       (∀ resp cfg2 x y,
          AppV2.make_twitch_request AppV2.GamesResponse.status cfg gamesNet ep =
            (.ok resp, cfg2, x, y) → resp.data = [] →
          AppV2.get_twitch_game_id cfg gamesNet ep name = (none, cfg2)))) ∧
    (∀ (cfg : AppV2.TrovoConfig) searchNet ep (name : String),
      name ≠ "" → cfg.access_token ≠ "" →
      ((∀ m cfg2 x y,
          AppV2.make_trovo_request AppV2.GamesResponse.status cfg searchNet ep =
            (.exn m, cfg2, x, y) →
          AppV2.get_trovo_category_id cfg searchNet ep name = (none, cfg2)) ∧
       (∀ resp cfg2 x y,
          AppV2.make_trovo_request AppV2.GamesResponse.status cfg searchNet ep =
            (.ok resp, cfg2, x, y) → 400 ≤ resp.status →
          AppV2.get_trovo_category_id cfg searchNet ep name = (none, cfg2)) ∧
       (∀ resp cfg2 x y,
          AppV2.make_trovo_request AppV2.GamesResponse.status cfg searchNet ep =
            (.ok resp, cfg2, x, y) → resp.data = [] →
          AppV2.get_trovo_category_id cfg searchNet ep name = (none, cfg2)))) ∧
    (∀ (cfg : AppV2.TwitchConfig) gamesNet patchNet ep1 ep2
        (title category : String) (cfg1 : AppV2.TwitchConfig),
      cfg.access_token ≠ "" → cfg.broadcaster_id ≠ "" → category ≠ "" →
      AppV2.get_twitch_game_id cfg gamesNet ep1 category = (none, cfg1) →
      ∀ (st : Nat) (cfg3 : AppV2.TwitchConfig) (x y : Nat),
        AppV2.make_twitch_request (fun s => s) cfg1
            (fun tok => patchNet tok { title := title, game_id := none }) ep2 =
          (.ok st, cfg3, x, y) →
        ¬ 400 ≤ st →
        AppV2.update_twitch cfg gamesNet patchNet ep1 ep2 title category =
          (.ok "Twitch обновлен", cfg3)) ∧
    (∀ (cfg : AppV2.TrovoConfig) searchNet postNet ep1 ep2
        (title category : String) (cfg1 : AppV2.TrovoConfig) (cid : Int),
      cfg.access_token ≠ "" → cfg.channel_id ≠ "" → category ≠ "" →
      AppV2.get_trovo_category_id cfg searchNet ep1 category = (none, cfg1) →
      cfg1.channel_id.toInt? = some cid →
      ∀ (st : Nat) (cfg3 : AppV2.TrovoConfig) (x y : Nat),
        AppV2.make_trovo_request (fun s => s) cfg1
            (fun tok => postNet tok
              { channel_id := cid, live_title := title, category_id := none }) ep2 =
          (.ok st, cfg3, x, y) →
        ¬ 400 ≤ st →
        AppV2.update_trovo cfg searchNet postNet ep1 ep2 title category =
          (.ok "Trovo обновлен", cfg3)) := by
  refine ⟨?_, ?_, ?_, ?_⟩
  · intro cfg gamesNet ep name hname htok
    refine ⟨?_, ?_, ?_⟩
    · intro m cfg2 x y hmk
      simp [AppV2.get_twitch_game_id, hname, htok, hmk]
    · intro resp cfg2 x y hmk hst
      simp [AppV2.get_twitch_game_id, hname, htok, hmk, hst]
    · intro resp cfg2 x y hmk hdata
      by_cases hst : 400 ≤ resp.status <;>
        simp [AppV2.get_twitch_game_id, hname, htok, hmk, hst, hdata]
  · intro cfg searchNet ep name hname htok
    refine ⟨?_, ?_, ?_⟩
    · intro m cfg2 x y hmk
      simp [AppV2.get_trovo_category_id, hname, htok, hmk]
    · intro resp cfg2 x y hmk hst
      simp [AppV2.get_trovo_category_id, hname, htok, hmk, hst]
    · intro resp cfg2 x y hmk hdata
      by_cases hst : 400 ≤ resp.status <;>
        simp [AppV2.get_trovo_category_id, hname, htok, hmk, hst, hdata]
  · intro cfg gamesNet patchNet ep1 ep2 title category cfg1 htok hbid hcat hres
    intro st cfg3 x y hpatch hst
    simp only [AppV2.update_twitch]
    rw [if_neg htok, if_neg hbid, if_pos hcat, hres]
    dsimp only
    rw [hpatch]
    dsimp only
    rw [if_neg hst]
  · intro cfg searchNet postNet ep1 ep2 title category cfg1 cid htok hcid hcat hres hint
    intro st cfg3 x y hpost hst
    simp only [AppV2.update_trovo]
    rw [if_neg htok, if_neg hcid, if_pos hcat, hres]
    dsimp only
    rw [hint]
    dsimp only
    rw [hpost]
    dsimp only
    rw [if_neg hst]

/-- Witness for C8 (amended) at a concrete run: a 500 search response yields
`None` from the app_v2 Twitch resolver instead of raising. -/
theorem C8_resolver_never_raises_amended_witness :
    AppV2.get_twitch_game_id
        { client_id := "cid", client_secret := "sec", access_token := "tok"
          refresh_token := "rt", broadcaster_id := "bid" }
        (fun _ => HttpResult.ok { status := 500, data := [] })
        (.exn "unused") "Dota 2" =
      (none,
       { client_id := "cid", client_secret := "sec", access_token := "tok"
         refresh_token := "rt", broadcaster_id := "bid" }) :=
  ((C8_resolver_never_raises_amended.1
      { client_id := "cid", client_secret := "sec", access_token := "tok"
        refresh_token := "rt", broadcaster_id := "bid" }
      (fun _ => HttpResult.ok { status := 500, data := [] })
      (.exn "unused") "Dota 2" (by decide) (by decide)).2.1
    { status := 500, data := [] }
    { client_id := "cid", client_secret := "sec", access_token := "tok"
      refresh_token := "rt", broadcaster_id := "bid" } 0 1 (by decide) (by decide))

/-- C9 counterexample: the `validate-config` route of `app.py` reports Twitch
as configured whenever the client id differs from the placeholder, even with
an empty access token — the claim "true iff the access token is non-empty,
independent of other fields" fails on the legacy variant. -/
theorem C9_validate_config_counterexample :
    (App.validate_config
        { client_id := "abc", access_token := "", broadcaster_id := "bid" }
        { access_token := "yt", video_id := "v" }
        { client_id := "tc", access_token := "tt", channel_id := "ch" }
        { access_token := "vk", channel_id := "c" }
        { access_token := "kk", channel_slug := "s" }).twitch = true ∧
    ({ client_id := "abc", access_token := "", broadcaster_id := "bid" } :
        App.TwitchConfig).access_token = "" := by
  decide

/-- C9 (amended): `check_config` of app_v2 reports each platform as
configured exactly when that platform's access token is non-empty, and its
result depends only on the five access tokens (independence from every other
credential field); the legacy `validate-config` route of app.py instead
compares the Twitch/Trovo client id and the YouTube/VKPlay/Kick access token
against their placeholder defaults. -/
theorem C9_config_status_amended :
    (∀ (tw : AppV2.TwitchConfig) (yt : AppV2.YoutubeConfig) (tr : AppV2.TrovoConfig)
        (vk : AppV2.VkplayConfig) (kk : AppV2.KickConfig),
      (((AppV2.check_config tw yt tr vk kk).twitch = true ↔ tw.access_token ≠ "") ∧
       ((AppV2.check_config tw yt tr vk kk).youtube = true ↔ yt.access_token ≠ "") ∧
       ((AppV2.check_config tw yt tr vk kk).trovo = true ↔ tr.access_token ≠ "") ∧
       ((AppV2.check_config tw yt tr vk kk).vkplay = true ↔ vk.access_token ≠ "") ∧
       ((AppV2.check_config tw yt tr vk kk).kick = true ↔ kk.access_token ≠ "")) ∧
      ∀ (tw2 : AppV2.TwitchConfig) (yt2 : AppV2.YoutubeConfig)
          (tr2 : AppV2.TrovoConfig) (vk2 : AppV2.VkplayConfig) (kk2 : AppV2.KickConfig),
        tw2.access_token = tw.access_token → yt2.access_token = yt.access_token →
        tr2.access_token = tr.access_token → vk2.access_token = vk.access_token →
        kk2.access_token = kk.access_token →
        AppV2.check_config tw2 yt2 tr2 vk2 kk2 = AppV2.check_config tw yt tr vk kk) ∧
    (∀ (tw : App.TwitchConfig) (yt : App.YoutubeConfig) (tr : App.TrovoConfig)
        (vk : App.VkplayConfig) (kk : App.KickConfig),
      ((App.validate_config tw yt tr vk kk).twitch = true ↔
        tw.client_id ≠ "YOUR_CLIENT_ID") ∧
      ((App.validate_config tw yt tr vk kk).trovo = true ↔
        tr.client_id ≠ "YOUR_CLIENT_ID") ∧
      ((App.validate_config tw yt tr vk kk).youtube = true ↔
        yt.access_token ≠ "YOUR_TOKEN") ∧
      ((App.validate_config tw yt tr vk kk).vkplay = true ↔
        vk.access_token ≠ "YOUR_TOKEN") ∧
      ((App.validate_config tw yt tr vk kk).kick = true ↔
        kk.access_token ≠ "YOUR_TOKEN")) := by
  constructor
  · intro tw yt tr vk kk
    constructor
    · refine ⟨?_, ?_, ?_, ?_, ?_⟩ <;> simp [AppV2.check_config]
    · intro tw2 yt2 tr2 vk2 kk2 h1 h2 h3 h4 h5
      simp [AppV2.check_config, h1, h2, h3, h4, h5]
  · intro tw yt tr vk kk
    refine ⟨?_, ?_, ?_, ?_, ?_⟩ <;> simp [App.validate_config]

/-- Witness for C9 (amended) at concrete configurations: a non-empty Twitch
access token reports configured even with every other field empty, and an
empty one reports not configured even with every other field set. -/
theorem C9_config_status_amended_witness :
    (AppV2.check_config
        { client_id := "", client_secret := "", access_token := "t"
          refresh_token := "", broadcaster_id := "" }
        { client_id := "", client_secret := "", access_token := ""
          refresh_token := "", video_id := "" }
        { client_id := "", client_secret := "", access_token := ""
          refresh_token := "", channel_id := "" }
        { access_token := "", channel_id := "" }
        { access_token := "", channel_slug := "" }).twitch = true ∧
    (AppV2.check_config
        { client_id := "c", client_secret := "s", access_token := ""
          refresh_token := "r", broadcaster_id := "b" }
        { client_id := "", client_secret := "", access_token := ""
          refresh_token := "", video_id := "" }
        { client_id := "", client_secret := "", access_token := ""
          refresh_token := "", channel_id := "" }
        { access_token := "", channel_id := "" }
        { access_token := "", channel_slug := "" }).twitch = false :=
  ⟨((C9_config_status_amended.1
      { client_id := "", client_secret := "", access_token := "t"
        refresh_token := "", broadcaster_id := "" }
      { client_id := "", client_secret := "", access_token := ""
        refresh_token := "", video_id := "" }
      { client_id := "", client_secret := "", access_token := ""
        refresh_token := "", channel_id := "" }
      { access_token := "", channel_id := "" }
      { access_token := "", channel_slug := "" }).1.1.mpr (by decide)),
   by
    have h := ((C9_config_status_amended.1
      { client_id := "c", client_secret := "s", access_token := ""
        refresh_token := "r", broadcaster_id := "b" }
      { client_id := "", client_secret := "", access_token := ""
        refresh_token := "", video_id := "" }
      { client_id := "", client_secret := "", access_token := ""
        refresh_token := "", channel_id := "" }
      { access_token := "", channel_id := "" }
      { access_token := "", channel_slug := "" }).1.1)
    revert h
    decide⟩

end StreamMgr
